import Mathlib

/-!
Verification development for the FastCloudflare tunnel orchestrator and
reverse-proxy gateway.  The definitions below are a shallow embedding of
`src/fastcloudflare/cloudflare_api.py` and `src/fastcloudflare/gateway.py`:
the provider API client, the tunnel CLI and the backend HTTP client are
modelled as explicit environment functions, and each Python coroutine is
translated into a pure Lean function that returns its result (or the
exception it raises), the updated configuration state, and the list of
network calls it issued, in order.
-/

/-- One JSON object of the provider API as the code accesses it: the fields
`id`, `token` and `domain_name` read from tunnel / DNS-record listings. -/
structure ApiItem where
  id : String := ""
  token : String := ""
  domain_name : String := ""
  deriving Repr, DecidableEq

/-- One entry of a response body's `errors` array; the code only reads
`code`. -/
structure ApiError where
  code : Nat := 0
  deriving Repr, DecidableEq

/-- The parts of a provider response body the code reads: `result` when it
is a single object (tunnel creation), `result` when it is an array
(listings), and the `errors` array. -/
structure ApiBody where
  result_item : Option ApiItem := none
  result_list : List ApiItem := []
  errors : List ApiError := []
  deriving Repr, DecidableEq

/-- A provider API response: HTTP status and parsed body. -/
structure ApiResp where
  status : Nat := 0
  body : ApiBody := {}
  deriving Repr, DecidableEq

/-- HTTP verb of a provider API call (`api_get` / `api_post` / `api_put` /
`api_request` with method `patch`). -/
inductive Method
  | get
  | post
  | put
  | patch
  deriving Repr, DecidableEq

/-- The JSON payloads the code constructs: the tunnel-creation body, the
ingress configuration, and the DNS-record body. -/
inductive Payload
  | noneP
  | tunnelCreate (domain_name config_src : String)
  | ingress (hostname service : String)
  | dnsCfg (ty : String) (proxied : Bool) (domain_name content : String)
  deriving Repr, DecidableEq

/-- One network call to the provider API: verb, named route, appended path
suffix and JSON payload (`force_refresh` is always `True` in the source, so
it is not tracked). -/
structure Call where
  method : Method
  route : String
  append : String := ""
  json : Payload := .noneP
  deriving Repr, DecidableEq

/-- The Python exceptions the embedded code can raise. -/
inductive PyErr
  | typeError
  | runtimeError
  | attributeError
  | indexError
  deriving Repr, DecidableEq

/-- `Info` dataclass: operator-supplied domain and the backend service URL. -/
structure Info where
  domain : String := ""
  service_url : String := ""
  deriving Repr, DecidableEq

/-- `Tunnel` dataclass: name, provider id, connector token and raw metadata. -/
structure Tunnel where
  name : String := ""
  id : String := ""
  token : String := ""
  meta : Option ApiItem := none
  deriving Repr, DecidableEq

/-- `CloudflaredCFG` dataclass: the persisted configuration state holding
`info` and `tunnel`. -/
structure CloudflaredCFG where
  info : Info := {}
  tunnel : Tunnel := {}
  deriving Repr, DecidableEq

/-- The external world of the orchestrator: the provider API client
(deterministic responder per call) and the tunnel CLI (`cloudflared(cmd,
headless=True).output`, a function from command string to captured
standard output). -/
structure PyEnv where
  api : Call → ApiResp
  cli : String → String

/-- Python `str.split(".")` on a character list: splits at every dot and
keeps empty pieces, so the result is always non-empty. -/
def pySplitDot : List Char → List (List Char)
  | [] => [[]]
  | c :: cs =>
    match pySplitDot cs with
    | [] => [[]]
    | w :: ws => if c = '.' then [] :: w :: ws else (c :: w) :: ws

/-- Python `str.replace(".", "-")` for the single-character pattern: a
character-wise map. -/
def pyReplaceDotDash (s : List Char) : List Char :=
  s.map (fun c => if c = '.' then '-' else c)

/-- `Cloudflare.domain_name`: `self.cloudflared_cfg.info.domain.split(".")[0]`. -/
def domain_name (cfg : CloudflaredCFG) : String :=
  ⟨(pySplitDot cfg.info.domain.data).headD []⟩

/-- The tunnel name computed at the top of `Cloudflare.tunnel`:
`f"\x7bself.domain_name\x7d-tunnel".replace(".", "-")`. -/
def tunnelNameOf (cfg : CloudflaredCFG) : String :=
  ⟨pyReplaceDotDash ((domain_name cfg).data ++ "-tunnel".data)⟩

/-- The POST that attempts remote tunnel creation. -/
def tunnelPostCall (name : String) : Call :=
  { method := .post, route := "tunnel", json := .tunnelCreate name "cloudflare" }

/-- The GET that lists existing tunnels after a 409 conflict. -/
def tunnelGetCall : Call :=
  { method := .get, route := "tunnel" }

/-- The response to the create POST (`post` in the source). -/
def tunnelPostResp (env : PyEnv) (cfg : CloudflaredCFG) : ApiResp :=
  env.api (tunnelPostCall (tunnelNameOf cfg))

/-- The token recovered from the tunnel CLI for a tunnel id
(`cloudflared(f"\x27cloudflared tunnel token ...\x27", headless=True).output`). -/
def cliToken (env : PyEnv) (tid : String) : String :=
  env.cli ("\x27cloudflared tunnel token " ++ tid ++ "\x27")

/-- The tunnel value persisted and returned after a successful create
or a conflict adoption of the listing entry `meta`. -/
def tunnelFromItem (name : String) (meta : ApiItem) (token : String) : Tunnel :=
  { name := name, id := meta.id, token := token, meta := some meta }

/-- `Cloudflare.tunnel` (async cached property, lines 92-134 of
`cloudflare_api.py`): create-or-adopt of the named tunnel.  Returns the
raised exception or the returned value (`none` models Python falling off
the end of the function and returning `None`), the updated persisted
state, and the API calls issued in order. -/
def tunnel (env : PyEnv) (cfg : CloudflaredCFG) :
    Except PyErr (Option Tunnel) × CloudflaredCFG × List Call :=
  if cfg.tunnel.id = "" then
    if (tunnelPostResp env cfg).status = 200 then
      match (tunnelPostResp env cfg).body.result_item with
      | none => (.error .typeError, cfg, [tunnelPostCall (tunnelNameOf cfg)])
      | some meta =>
        (.ok (some (tunnelFromItem (tunnelNameOf cfg) meta meta.token)),
         { cfg with tunnel := tunnelFromItem (tunnelNameOf cfg) meta meta.token },
         [tunnelPostCall (tunnelNameOf cfg)])
    else if (tunnelPostResp env cfg).status = 409 then
      match (env.api tunnelGetCall).body.result_list.find?
          (fun item => item.domain_name = tunnelNameOf cfg) with
      | none =>
        (.error .typeError, cfg, [tunnelPostCall (tunnelNameOf cfg), tunnelGetCall])
      | some item =>
        (.ok (some (tunnelFromItem (tunnelNameOf cfg) item (cliToken env item.id))),
         { cfg with tunnel := tunnelFromItem (tunnelNameOf cfg) item (cliToken env item.id) },
         [tunnelPostCall (tunnelNameOf cfg), tunnelGetCall])
    else
      (.ok none, cfg, [tunnelPostCall (tunnelNameOf cfg)])
  else
    (.ok (some cfg.tunnel), cfg, [])

/-- The attributes of `self` that `connect_server` consults outside the
persisted configuration: `getattr(self.app, "url", ...)` (present iff the
wrapped app object has a `url` attribute) and `self.url` (defaulted to
`""` in `Cloudflare.__init__`). -/
structure AppEnv where
  appUrl : Option String := none
  selfUrl : String := ""

/-- The PUT that pushes the ingress configuration for a tunnel id. -/
def ingressPutCall (tid hostname service : String) : Call :=
  { method := .put, route := "tunnel", append := "/" ++ tid ++ "/configurations",
    json := .ingress hostname service }

/-- The store after the service-URL fallback at the top of
`connect_server`: an empty `service_url` is replaced by
`getattr(self.app, "url", self.url)`. -/
def serviceFallback (app : AppEnv) (cfg : CloudflaredCFG) : CloudflaredCFG :=
  if cfg.info.service_url = "" then
    { cfg with info := { cfg.info with service_url := app.appUrl.getD app.selfUrl } }
  else cfg

/-- The ingress-configuration PUT issued by `connect_server` for tunnel `t`. -/
def ingressCallOf (app : AppEnv) (cfg : CloudflaredCFG) (t : Tunnel) : Call :=
  ingressPutCall t.id (serviceFallback app cfg).info.domain
    (serviceFallback app cfg).info.service_url

/-- `Cloudflare.connect_server` (lines 136-171 of `cloudflare_api.py`).
When `info.service_url` is empty it is replaced by
`getattr(self.app, "url", self.url)`; the three-argument `getattr` returns
the default instead of raising, so the inner `except AttributeError`
branch is unreachable.  `tun` is the value of the cached `self.tunnel`
property (`none` models the property having produced Python `None`, on
which the `.id` access raises `AttributeError` before any call is made).
The PUT response is returned; only status 400 raises. -/
def connect_server (env : PyEnv) (app : AppEnv) (cfg : CloudflaredCFG) (tun : Option Tunnel) :
    Except PyErr ApiResp × CloudflaredCFG × List Call :=
  match tun with
  | none => (.error .attributeError, serviceFallback app cfg, [])
  | some t =>
    if (env.api (ingressCallOf app cfg t)).status = 400 then
      (.error .runtimeError, serviceFallback app cfg, [ingressCallOf app cfg t])
    else
      (.ok (env.api (ingressCallOf app cfg t)), serviceFallback app cfg, [ingressCallOf app cfg t])

/-- The POST that attempts DNS-record creation. -/
def dnsPostCall (p : Payload) : Call :=
  { method := .post, route := "dns_record", json := p }

/-- The GET that lists DNS records after an already-exists error. -/
def dnsGetCall : Call :=
  { method := .get, route := "dns_record" }

/-- The PATCH issued against an adopted record id. -/
def dnsPatchCall (recId : String) (p : Payload) : Call :=
  { method := .patch, route := "dns_record", append := "/" ++ recId, json := p }

/-- The CNAME payload `cfg` built in `dns_record`. -/
def dnsPayload (cfg : CloudflaredCFG) : Payload :=
  .dnsCfg "CNAME" true cfg.info.domain (cfg.tunnel.id ++ ".cfargotunnel.com")

/-- The response to the DNS-record POST (`out` in the source). -/
def dnsPostResp (env : PyEnv) (cfg : CloudflaredCFG) : ApiResp :=
  env.api (dnsPostCall (dnsPayload cfg))

/-- `Cloudflare.dns_record` (lines 173-212 of `cloudflare_api.py`):
idempotent create-or-adopt of the proxied CNAME record.  On a 400
response the code indexes `out.body["errors"][0]` (IndexError when the
array is empty); on provider code 81053 it lists the zone's records,
scans for an exact `domain_name` match, raises RuntimeError when none
matches, and otherwise PATCHes the matched record id with the same
payload.  In every non-raising path the original POST response `out` is
returned.  The source reads the store through the attribute name
`self.cloudflare_cfg` while the constructor assigns
`self.cloudflared_cfg`; whether the external API base class aliases the
former is outside the repository, so both names are modelled as the one
persisted configuration store. -/
def dns_record (env : PyEnv) (cfg : CloudflaredCFG) :
    Except PyErr ApiResp × List Call :=
  if (dnsPostResp env cfg).status = 400 then
    match (dnsPostResp env cfg).body.errors.head? with
    | none => (.error .indexError, [dnsPostCall (dnsPayload cfg)])
    | some e =>
      if e.code = 81053 then
        match (env.api dnsGetCall).body.result_list.find?
            (fun item => item.domain_name = cfg.info.domain) with
        | none => (.error .runtimeError, [dnsPostCall (dnsPayload cfg), dnsGetCall])
        | some rec =>
          (.ok (dnsPostResp env cfg),
           [dnsPostCall (dnsPayload cfg), dnsGetCall, dnsPatchCall rec.id (dnsPayload cfg)])
      else (.ok (dnsPostResp env cfg), [dnsPostCall (dnsPayload cfg)])
  else (.ok (dnsPostResp env cfg), [dnsPostCall (dnsPayload cfg)])

/-- `Cloudflare.cloudflared_thread` provisioning prefix (line 216 of
`cloudflare_api.py`): `await self.tunnel, await self.connect_server,
await self.dns_record`, evaluated left to right, an exception in one
step preventing the later steps from running.  Returns the first raised
exception (or unit) and the concatenated trace of API calls. -/
def cloudflared_thread (env : PyEnv) (app : AppEnv) (cfg : CloudflaredCFG) :
    Except PyErr Unit × List Call :=
  match tunnel env cfg with
  | (.error e, _, c1) => (.error e, c1)
  | (.ok oT, cfg1, c1) =>
    match connect_server env app cfg1 oT with
    | (.error e, _, c2) => (.error e, c1 ++ c2)
    | (.ok _, cfg2, c2) =>
      match dns_record env cfg2 with
      | (.error e, c3) => (.error e, c1 ++ c2 ++ c3)
      | (.ok _, c3) => (.ok (), c1 ++ c2 ++ c3)

/-- An inbound edge request as the `forward` handler reads it: method,
the URL path (`request.url.path`), headers, query parameters and body. -/
structure Req where
  method : String := "GET"
  urlPath : String := "/"
  headers : List (String × String) := []
  queryParams : List (String × String) := []
  reqBody : String := ""

/-- The backend's reply as read by the handler: status, headers, content. -/
structure BackendResp where
  status_code : Nat := 200
  headers : List (String × String) := []
  content : String := ""

/-- Outcome of `await self.client.request(...)`: either a backend response
or a raised exception (the handler's `except Exception` catches every
transport error). -/
inductive ForwardOutcome
  | ok (resp : BackendResp)
  | exc

/-- The response the handler returns: the status code, the header dict it
explicitly passed to the response constructor (the server framework
regenerates `content-length` and a default `content-type` on top of
these; those are not part of the dict), the body, and the media type the
response class fixes (`text/html` for `HTMLResponse`, none for the plain
passthrough `Response`). -/
structure GwResponse where
  status_code : Nat
  headers : List (String × String)
  content : String
  mediaType : Option String := none

/-- Python `str.lower()` as the character-wise lowercase map (the header
names compared in the source are ASCII, where the two coincide). -/
def pyLower (s : String) : String :=
  ⟨s.data.map Char.toLower⟩

/-- Python dict assignment `d[k] = v` on an insertion-ordered association
list: overwrite in place when the exact key is present, append otherwise. -/
def dictSet (d : List (String × String)) (k v : String) : List (String × String) :=
  if d.any (fun kv => kv.1 = k) then
    d.map (fun kv => if kv.1 = k then (k, v) else kv)
  else d ++ [(k, v)]

/-- The header names scrubbed from the backend response
(`{'content-encoding', 'transfer-encoding', 'content-length', 'connection'}`). -/
def scrubbedNames : List String :=
  ["content-encoding", "transfer-encoding", "content-length", "connection"]

/-- The response-header loop of `forward`: `headers = \x7b\x7d` then
`headers[k] = v` for every backend header whose lowercased name is not in
the scrubbed set. -/
def cleanRespHeaders (hs : List (String × String)) : List (String × String) :=
  hs.foldl
    (fun d kv => if pyLower kv.1 ∈ scrubbedNames then d else dictSet d kv.1 kv.2) []

/-- The request-header dict comprehension of `forward`: every inbound
header except `host` and `content-length` (lowercased comparison). -/
def outgoingReqHeaders (req : Req) : List (String × String) :=
  req.headers.foldl
    (fun d kv => if pyLower kv.1 ∈ ["host", "content-length"] then d else dictSet d kv.1 kv.2) []

/-- Modelled from the spec: `popup_404` lives in the external
session-server collaborator (`toomanysessions`), not in this repository;
per the spec it renders the branded "not found" HTML page around the
given message. -/
def popup_404 (message : String) : String :=
  "<html><body><h1>404 Not Found</h1><p>" ++ message ++ "</p></body></html>"

/-- Modelled from the spec: `popup_error` lives in the external
session-server collaborator; per the spec it renders the branded error
page for the given status code and message. -/
def popup_error (errorCode : Nat) (message : String) : String :=
  "<html><body><h1>Error " ++ toString errorCode ++ "</h1><p>" ++ message ++
    "</p></body></html>"

/-- The header dict handed to the passthrough response constructor: the
scrub loop followed by the two forced assignments
`headers["Connection"] = "keep-alive"` and
`headers["Keep-Alive"] = "timeout=60, max=1000"`. -/
def respHeadersOut (resp : BackendResp) : List (String × String) :=
  dictSet (dictSet (cleanRespHeaders resp.headers) "Connection" "keep-alive")
    "Keep-Alive" "timeout=60, max=1000"

/-- The catch-all `forward` handler of `Gateway.__init__`
(`gateway.py`, lines 62-113), as a function of the request and of the
outcome of the backend call.  On success the backend headers are
scrubbed, `Connection: keep-alive` and the `Keep-Alive` hint are forced,
and the response is passed through - unless its status is 404, in which
case a branded HTML page naming `request.url.path` is returned instead
(built by `HTMLResponse` with no explicit headers).  On any exception a
branded 500 HTML page is returned, again with no explicit headers. -/
def forward (req : Req) (outcome : ForwardOutcome) : GwResponse :=
  match outcome with
  | .exc =>
    { status_code := 500, headers := [],
      content := popup_error 500 "An unexpected error occurred while processing your request.",
      mediaType := some "text/html" }
  | .ok resp =>
    if resp.status_code = 404 then
      { status_code := 404, headers := [],
        content := popup_404 ("The page \x27" ++ req.urlPath ++ "\x27 could not be found."),
        mediaType := some "text/html" }
    else
      { status_code := resp.status_code, headers := respHeadersOut resp,
        content := resp.content }

/-- `needle` occurs contiguously inside `hay` (substring containment at
the character-list level). -/
def StrContains (hay needle : String) : Prop :=
  ∃ a b, hay.data = a ++ needle.data ++ b

/-- A call is an ingress-configuration call (the only PUT the code issues). -/
def isIngressCall (c : Call) : Bool :=
  c.method == .put

/-- A call is a DNS-record call. -/
def isDnsCall (c : Call) : Bool :=
  c.route == "dns_record"

/-- A call is a tunnel-provisioning call (create POST or listing GET). -/
def isTunnelProvCall (c : Call) : Bool :=
  c.route == "tunnel" && (c.method == .post || c.method == .get)

/-! Concrete scenarios used by witnesses and counterexamples. -/

/-- A store with the operator domain set and no persisted tunnel. -/
def emptyIdCfg : CloudflaredCFG :=
  { info := { domain := "example.com" } }

/-- An API that answers every call with a bare status 500. -/
def status500Env : PyEnv :=
  { api := fun _ => { status := 500 }, cli := fun _ => "" }

/-- An API that answers 409 on the create POST and lists one tunnel whose
`domain_name` does not match. -/
def conflictNoMatchEnv : PyEnv :=
  { api := fun c =>
      if c.method = .post then { status := 409 }
      else { status := 200,
             body := { result_list := [{ id := "zzz", domain_name := "other-tunnel" }] } },
    cli := fun _ => "tok" }

/-- The listing entry adopted in the conflict scenario. -/
def matchedItem : ApiItem :=
  { id := "tid9", domain_name := "example-tunnel" }

/-- An API that answers 409 on the create POST and lists one tunnel whose
`domain_name` matches `example-tunnel`; the CLI prints `cli-token`. -/
def conflictMatchEnv : PyEnv :=
  { api := fun c =>
      if c.method = .post then { status := 409 }
      else { status := 200, body := { result_list := [matchedItem] } },
    cli := fun _ => "cli-token" }

/-- The tunnel adopted in the conflict scenario. -/
def adoptedTunnel : Tunnel :=
  { name := "example-tunnel", id := "tid9", token := "cli-token", meta := some matchedItem }

/-- The creation result object in the successful-create scenario. -/
def createdItem : ApiItem :=
  { id := "tid1", token := "tok1" }

/-- An API whose create POST succeeds with `createdItem`. -/
def createOkEnv : PyEnv :=
  { api := fun _ => { status := 200, body := { result_item := some createdItem } },
    cli := fun _ => "" }

/-- The tunnel persisted by the successful create. -/
def createdTunnel : Tunnel :=
  { name := "example-tunnel", id := "tid1", token := "tok1", meta := some createdItem }

/-- The store after the successful create persisted `createdTunnel`. -/
def createdCfg : CloudflaredCFG :=
  { emptyIdCfg with tunnel := createdTunnel }

/-- A store with a persisted tunnel and a backend service URL. -/
def persistedCfg : CloudflaredCFG :=
  { info := { domain := "example.com", service_url := "http://localhost:8000" },
    tunnel := { name := "example-tunnel", id := "tid", token := "tok" } }

/-- A store with a persisted tunnel but an empty backend service URL. -/
def emptyServiceCfg : CloudflaredCFG :=
  { info := { domain := "example.com", service_url := "" },
    tunnel := { name := "example-tunnel", id := "tid", token := "tok" } }

/-- An API that answers every call with a bare status 200. -/
def okEnv : PyEnv :=
  { api := fun _ => { status := 200 }, cli := fun _ => "" }

/-- An API whose ingress PUT fails with 500 while every other call gets 200. -/
def ingressFailEnv : PyEnv :=
  { api := fun c => if c.method = .put then { status := 500 } else { status := 200 },
    cli := fun _ => "" }

/-- The DNS record adopted in the DNS convergence scenario. -/
def dnsMatchedRec : ApiItem :=
  { id := "rid7", domain_name := "example.com" }

/-- An API whose DNS POST answers 400 with provider code 81053, whose DNS
GET lists `dnsMatchedRec`, and whose PATCH answers 200. -/
def dnsAdoptEnv : PyEnv :=
  { api := fun c =>
      if c.method = .post then { status := 400, body := { errors := [{ code := 81053 }] } }
      else if c.method = .get then
        { status := 200, body := { result_list := [dnsMatchedRec] } }
      else { status := 200 },
    cli := fun _ => "" }

/-- A sample edge request. -/
def sampleReq : Req :=
  { urlPath := "/foo" }

/-- A sample backend response with scrub-relevant headers. -/
def sampleResp : BackendResp :=
  { status_code := 200,
    headers := [("Content-Encoding", "gzip"), ("X-Thing", "1"), ("Connection", "close")],
    content := "hello" }

/-- A backend 404 response. -/
def sample404Resp : BackendResp :=
  { status_code := 404, headers := [("Content-Type", "text/plain")], content := "nope" }

/-! Helper lemmas. -/

/-- Whenever `tunnel` returns a tunnel, that tunnel is the one left in the
persisted store. -/
theorem tunnel_ok_some_state (env : PyEnv) (cfg cfg' : CloudflaredCFG) (t : Tunnel)
    (calls : List Call) (h : tunnel env cfg = (.ok (some t), cfg', calls)) :
    cfg'.tunnel = t := by
  unfold tunnel at h
  split at h
  · split at h
    · split at h
      · simp at h
      · simp only [Prod.mk.injEq, Except.ok.injEq, Option.some.injEq] at h
        obtain ⟨h1, h2, _⟩ := h
        subst h1
        subst h2
        rfl
    · split at h
      · split at h
        · simp at h
        · simp only [Prod.mk.injEq, Except.ok.injEq, Option.some.injEq] at h
          obtain ⟨h1, h2, _⟩ := h
          subst h1
          subst h2
          rfl
      · simp only [Prod.mk.injEq, Except.ok.injEq, Option.some.injEq] at h
        exact absurd h.1 (by simp)
  · simp only [Prod.mk.injEq, Except.ok.injEq, Option.some.injEq] at h
    obtain ⟨h1, h2, _⟩ := h
    subst h2
    exact h1

/-- C2: if a persisted tunnel with non-empty id exists, `tunnel` returns it
unchanged with zero network calls; consequently a second invocation after a
first one that returned a tunnel with non-empty id (state persisted in
between) makes no network call and returns an identical tunnel. -/
theorem ensure_tunnel_idempotent (env : PyEnv) (cfg : CloudflaredCFG) :
    (cfg.tunnel.id ≠ "" → tunnel env cfg = (.ok (some cfg.tunnel), cfg, [])) ∧
    (∀ t cfg' calls, tunnel env cfg = (.ok (some t), cfg', calls) → t.id ≠ "" →
      tunnel env cfg' = (.ok (some t), cfg', [])) := by
  constructor
  · intro h
    unfold tunnel
    rw [if_neg h]
  · intro t cfg' calls h ht
    have hstate := tunnel_ok_some_state env cfg cfg' t calls h
    unfold tunnel
    rw [hstate, if_neg ht]

/-- Witness for C2: the second invocation after a successful create is a
no-op returning the persisted tunnel. -/
theorem ensure_tunnel_idempotent_witness :
    tunnel createOkEnv createdCfg = (.ok (some createdTunnel), createdCfg, []) :=
  (ensure_tunnel_idempotent createOkEnv emptyIdCfg).2 createdTunnel createdCfg
    [tunnelPostCall "example-tunnel"] rfl (by decide)

/-- C5: with no persisted tunnel and a create POST answered with status
500, `tunnel` raises no error and falls off the end of the function,
returning Python `None` instead of failing with a provision error carrying
status and body (no `TunnelProvisionError` exists in the code). -/
theorem tunnel_other_status_returns_none :
    tunnel status500Env emptyIdCfg =
      (.ok none, emptyIdCfg, [tunnelPostCall "example-tunnel"]) := rfl

/-- C6: with no persisted tunnel, a 409 on create, and a listing whose only
entry has a non-matching `domain_name`, `tunnel` crashes with a TypeError
(subscripting the absent match in the f-string building the CLI command)
rather than a deliberate named not-found error; the store is unchanged, so
no tunnel is persisted. -/
theorem tunnel_conflict_no_match_typeerror :
    tunnel conflictNoMatchEnv emptyIdCfg =
      (.error .typeError, emptyIdCfg,
       [tunnelPostCall "example-tunnel", tunnelGetCall]) := rfl

/-- C9: with an empty `service_url`, no `url` attribute on the wrapped app
and an empty `self.url`, `connect_server` does not fail before the update:
it issues the ingress PUT with an empty backend service and returns
normally. -/
theorem connect_server_empty_service_pushes :
    connect_server okEnv { appUrl := none, selfUrl := "" } emptyServiceCfg
        (some emptyServiceCfg.tunnel) =
      (.ok { status := 200 }, emptyServiceCfg,
       [ingressPutCall "tid" "example.com" ""]) := rfl

/-- C7: when the create POST answers 409 and the listing's first exact
`domain_name` match is `item`, `tunnel` returns without raising a tunnel
whose id is `item.id` and whose token is the output of the CLI token
subcommand; the matched entry's name equals the requested name exactly,
and the only calls are the one create POST and the listing GET (no second
creation). -/
theorem tunnel_conflict_adopt (env : PyEnv) (cfg : CloudflaredCFG) (item : ApiItem)
    (h0 : cfg.tunnel.id = "")
    (h409 : (tunnelPostResp env cfg).status = 409)
    (hfind : (env.api tunnelGetCall).body.result_list.find?
        (fun it => it.domain_name = tunnelNameOf cfg) = some item) :
    tunnel env cfg =
      (.ok (some (tunnelFromItem (tunnelNameOf cfg) item (cliToken env item.id))),
       { cfg with tunnel := tunnelFromItem (tunnelNameOf cfg) item (cliToken env item.id) },
       [tunnelPostCall (tunnelNameOf cfg), tunnelGetCall]) ∧
    item.domain_name = tunnelNameOf cfg ∧
    (tunnel env cfg).2.2.countP (fun c => c.method == .post) = 1 := by
  have h200 : ¬ (tunnelPostResp env cfg).status = 200 := by
    rw [h409]
    decide
  have hmain : tunnel env cfg =
      (.ok (some (tunnelFromItem (tunnelNameOf cfg) item (cliToken env item.id))),
       { cfg with tunnel := tunnelFromItem (tunnelNameOf cfg) item (cliToken env item.id) },
       [tunnelPostCall (tunnelNameOf cfg), tunnelGetCall]) := by
    unfold tunnel
    rw [if_pos h0, if_neg h200, if_pos h409, hfind]
  refine ⟨hmain, ?_, ?_⟩
  · have := List.find?_some hfind
    simpa using this
  · rw [hmain]
    simp [tunnelPostCall, tunnelGetCall]

/-- Witness for C7: the conflict-adoption scenario evaluated concretely. -/
theorem tunnel_conflict_adopt_witness :
    tunnel conflictMatchEnv emptyIdCfg =
      (.ok (some adoptedTunnel), { emptyIdCfg with tunnel := adoptedTunnel },
       [tunnelPostCall "example-tunnel", tunnelGetCall]) := by
  have h := tunnel_conflict_adopt conflictMatchEnv emptyIdCfg matchedItem rfl rfl (by decide)
  exact h.1

/-- `pySplitDot` never returns the empty list. -/
theorem pySplitDot_ne_nil (l : List Char) : pySplitDot l ≠ [] := by
  cases l with
  | nil => simp [pySplitDot]
  | cons c cs =>
    simp only [pySplitDot]
    split
    · simp
    · split <;> simp

/-- The first piece of `pySplitDot` is the prefix before the first dot. -/
theorem pySplitDot_headD (l : List Char) :
    (pySplitDot l).headD [] = l.takeWhile (fun c => c != '.') := by
  induction l with
  | nil => rfl
  | cons c cs ih =>
    simp only [pySplitDot]
    cases h : pySplitDot cs with
    | nil => exact absurd h (pySplitDot_ne_nil cs)
    | cons w ws =>
      rw [h] at ih
      simp only [List.headD_cons] at ih
      by_cases hc : c = '.'
      · subst hc
        simp [List.takeWhile_cons]
      · simp [hc, List.takeWhile_cons, ih]

/-- Members of the before-first-dot prefix are not dots. -/
theorem mem_takeWhile_ne_dot (l : List Char) :
    ∀ c ∈ l.takeWhile (fun c => c != '.'), c ≠ '.' := by
  intro c hc
  have := List.mem_takeWhile_imp hc
  simpa using this

/-- `replace(".", "-")` does not change a string without dots. -/
theorem pyReplaceDotDash_of_no_dot (l : List Char) (h : ∀ c ∈ l, c ≠ '.') :
    pyReplaceDotDash l = l := by
  unfold pyReplaceDotDash
  induction l with
  | nil => rfl
  | cons c cs ih =>
    simp only [List.map_cons]
    rw [if_neg (h c (by simp)), ih (fun x hx => h x (by simp [hx]))]

/-- The computed tunnel name is the domain's first dot-separated label
followed by `-tunnel`. -/
theorem tunnelNameOf_eq (cfg : CloudflaredCFG) :
    tunnelNameOf cfg =
      ⟨cfg.info.domain.data.takeWhile (fun c => c != '.') ++ "-tunnel".data⟩ := by
  unfold tunnelNameOf domain_name
  have hhead : (pySplitDot cfg.info.domain.data).headD [] =
      cfg.info.domain.data.takeWhile (fun c => c != '.') := pySplitDot_headD _
  have hsuffix : ∀ c ∈ "-tunnel".data, c ≠ '.' := by decide
  congr 1
  rw [show (String.mk ((pySplitDot cfg.info.domain.data).headD [])).data =
      (pySplitDot cfg.info.domain.data).headD [] from rfl, hhead]
  apply pyReplaceDotDash_of_no_dot
  intro c hc
  rcases List.mem_append.1 hc with h1 | h2
  · exact mem_takeWhile_ne_dot _ c h1
  · exact hsuffix c h2

/-- C10: for any domain with at least one character, the tunnel name used
for creation and for the conflict scan is the prefix of the domain before
its first dot followed by `-tunnel`; two domains sharing that first label
get the same name; and with no persisted tunnel the first network call is
the create POST carrying exactly that name. -/
theorem tunnel_name_first_label (cfg cfg2 : CloudflaredCFG)
    (hne : cfg.info.domain.data ≠ []) :
    tunnelNameOf cfg =
      ⟨cfg.info.domain.data.takeWhile (fun c => c != '.') ++ "-tunnel".data⟩ ∧
    (cfg2.info.domain.data.takeWhile (fun c => c != '.') =
        cfg.info.domain.data.takeWhile (fun c => c != '.') →
      tunnelNameOf cfg2 = tunnelNameOf cfg) ∧
    (∀ env, cfg.tunnel.id = "" →
      ((tunnel env cfg).2.2).head? = some (tunnelPostCall (tunnelNameOf cfg))) := by
  refine ⟨tunnelNameOf_eq cfg, ?_, ?_⟩
  · intro hlbl
    rw [tunnelNameOf_eq cfg, tunnelNameOf_eq cfg2, hlbl]
  · intro env h0
    unfold tunnel
    rw [if_pos h0]
    split
    · split <;> rfl
    · split
      · split <;> rfl
      · rfl

/-- Witness for C10: two distinct domains sharing the first label `app`
map to the same tunnel name `app-tunnel`. -/
theorem tunnel_name_first_label_witness :
    tunnelNameOf { info := { domain := "app.example.com" } } =
      ⟨("app.example.com".data.takeWhile (fun c => c != '.')) ++ "-tunnel".data⟩ ∧
    tunnelNameOf { info := { domain := "app.other.org" } } =
      tunnelNameOf { info := { domain := "app.example.com" } } := by
  have h := tunnel_name_first_label { info := { domain := "app.example.com" } }
    { info := { domain := "app.other.org" } } (by decide)
  exact ⟨h.1, h.2.1 (by decide)⟩

/-- C3: when the DNS POST answers 400 with provider code 81053 in its
first error and the listing's first exact `domain_name` match is `rec`,
`dns_record` raises no error, and its calls are the POST, the GET, and
exactly one PATCH, addressed to the matched record's id and carrying the
same payload as the POST. -/
theorem dns_record_adopts (env : PyEnv) (cfg : CloudflaredCFG) (e : ApiError)
    (rec : ApiItem)
    (hpost : (dnsPostResp env cfg).status = 400)
    (herr : (dnsPostResp env cfg).body.errors.head? = some e)
    (hcode : e.code = 81053)
    (hfind : (env.api dnsGetCall).body.result_list.find?
        (fun it => it.domain_name = cfg.info.domain) = some rec) :
    dns_record env cfg =
      (.ok (dnsPostResp env cfg),
       [dnsPostCall (dnsPayload cfg), dnsGetCall,
        dnsPatchCall rec.id (dnsPayload cfg)]) ∧
    rec.domain_name = cfg.info.domain ∧
    (dns_record env cfg).2.countP (fun c => c.method == .patch) = 1 := by
  have hmain : dns_record env cfg =
      (.ok (dnsPostResp env cfg),
       [dnsPostCall (dnsPayload cfg), dnsGetCall,
        dnsPatchCall rec.id (dnsPayload cfg)]) := by
    unfold dns_record
    rw [if_pos hpost, herr]
    simp only [hcode, hfind, if_true, eq_self_iff_true]
  refine ⟨hmain, ?_, ?_⟩
  · have := List.find?_some hfind
    simpa using this
  · rw [hmain]
    simp [dnsPostCall, dnsGetCall, dnsPatchCall]

/-- Witness for C3: the DNS convergence scenario evaluated concretely. -/
theorem dns_record_adopts_witness :
    dns_record dnsAdoptEnv persistedCfg =
      (.ok (dnsPostResp dnsAdoptEnv persistedCfg),
       [dnsPostCall (dnsPayload persistedCfg), dnsGetCall,
        dnsPatchCall "rid7" (dnsPayload persistedCfg)]) := by
  have h := dns_record_adopts dnsAdoptEnv persistedCfg { code := 81053 } dnsMatchedRec
    rfl rfl rfl (by decide)
  exact h.1

/-- Python dict assignment puts the assigned pair in the dict. -/
theorem mem_dictSet_self (d : List (String × String)) (k v : String) :
    (k, v) ∈ dictSet d k v := by
  unfold dictSet
  split
  · rename_i h
    rw [List.any_eq_true] at h
    obtain ⟨kv, hkv, hk⟩ := h
    refine List.mem_map.2 ⟨kv, hkv, ?_⟩
    rw [if_pos (of_decide_eq_true hk)]
  · simp

/-- Every member of a dict after assignment is the assigned pair or an
original member. -/
theorem mem_dictSet (d : List (String × String)) (k v : String)
    (kv : String × String) (h : kv ∈ dictSet d k v) : kv = (k, v) ∨ kv ∈ d := by
  unfold dictSet at h
  split at h
  · obtain ⟨x, hx, hxe⟩ := List.mem_map.1 h
    by_cases hk : x.1 = k
    · left
      rw [← hxe, if_pos hk]
    · right
      rw [← hxe, if_neg hk]
      exact hx
  · rcases List.mem_append.1 h with h1 | h2
    · right
      exact h1
    · left
      simpa using h2

/-- Assignment under a different key preserves membership. -/
theorem mem_dictSet_of_ne (d : List (String × String)) (k v : String)
    (kv : String × String) (hne : kv.1 ≠ k) (h : kv ∈ d) : kv ∈ dictSet d k v := by
  unfold dictSet
  split
  · refine List.mem_map.2 ⟨kv, h, ?_⟩
    rw [if_neg hne]
  · exact List.mem_append.2 (Or.inl h)

/-- No header surviving the scrub loop has a scrubbed (lowercased) name. -/
theorem cleanRespHeaders_not_scrubbed (hs : List (String × String)) :
    ∀ kv ∈ cleanRespHeaders hs, pyLower kv.1 ∉ scrubbedNames := by
  unfold cleanRespHeaders
  suffices h : ∀ acc, (∀ kv ∈ acc, pyLower kv.1 ∉ scrubbedNames) →
      ∀ kv ∈ hs.foldl
        (fun d kv => if pyLower kv.1 ∈ scrubbedNames then d else dictSet d kv.1 kv.2) acc,
        pyLower kv.1 ∉ scrubbedNames by
    exact h [] (by simp)
  induction hs with
  | nil =>
    intro acc hacc kv hkv
    exact hacc kv hkv
  | cons x xs ih =>
    intro acc hacc kv hkv
    simp only [List.foldl_cons] at hkv
    by_cases hx : pyLower x.1 ∈ scrubbedNames
    · rw [if_pos hx] at hkv
      exact ih acc hacc kv hkv
    · rw [if_neg hx] at hkv
      refine ih _ ?_ kv hkv
      intro kv2 hkv2
      rcases mem_dictSet _ _ _ _ hkv2 with he | hm
      · rw [he]
        exact hx
      · exact hacc kv2 hm

/-- C1 (amended): a passthrough response (backend replied with a status
other than 404) carries `Connection: keep-alive`, and every header whose
lowercased name is one of the scrubbed four is exactly that forced
`Connection` header; the rendered 404/500 error pages are built with no
explicit headers at all (so no scrubbed header, but also no
`Connection: keep-alive`). -/
theorem forward_scrubs_and_keepalive (req : Req) (outcome : ForwardOutcome) :
    (∀ resp, outcome = .ok resp → resp.status_code ≠ 404 →
      ("Connection", "keep-alive") ∈ (forward req outcome).headers ∧
      ∀ kv ∈ (forward req outcome).headers, pyLower kv.1 ∈ scrubbedNames →
        kv = ("Connection", "keep-alive")) ∧
    (outcome = .exc → (forward req outcome).headers = []) ∧
    (∀ resp, outcome = .ok resp → resp.status_code = 404 →
      (forward req outcome).headers = []) := by
  refine ⟨?_, ?_, ?_⟩
  · rintro resp rfl h404
    have hred : (forward req (.ok resp)).headers = respHeadersOut resp := by
      simp only [forward]
      rw [if_neg h404]
    rw [hred]
    constructor
    · exact mem_dictSet_of_ne _ _ _ _ (by decide)
        (mem_dictSet_self (cleanRespHeaders resp.headers) "Connection" "keep-alive")
    · intro kv hkv hscrub
      rcases mem_dictSet _ _ _ _ hkv with he | hm
      · exfalso
        rw [he] at hscrub
        revert hscrub
        decide
      · rcases mem_dictSet _ _ _ _ hm with he2 | hm2
        · exact he2
        · exact absurd hscrub (cleanRespHeaders_not_scrubbed resp.headers kv hm2)
  · rintro rfl
    rfl
  · rintro resp rfl h404
    simp only [forward]
    rw [if_pos h404]
  

/-- Counterexample to C1 as stated: the handler's rendered error pages do
not carry `Connection: keep-alive` - neither the 500 page after a raised
transport error nor the branded 404 page. -/
theorem forward_errorpages_lack_keepalive :
    ¬ ("Connection", "keep-alive") ∈ (forward sampleReq ForwardOutcome.exc).headers ∧
    ¬ ("Connection", "keep-alive") ∈
        (forward sampleReq (ForwardOutcome.ok sample404Resp)).headers := by
  constructor <;> simp [forward, sample404Resp]

/-- Witness for the amended C1: concrete passthrough and error responses. -/
theorem forward_scrubs_and_keepalive_witness :
    ("Connection", "keep-alive") ∈
      (forward sampleReq (ForwardOutcome.ok sampleResp)).headers ∧
    (forward sampleReq ForwardOutcome.exc).headers = [] :=
  ⟨((forward_scrubs_and_keepalive sampleReq (.ok sampleResp)).1 sampleResp rfl
      (by decide)).1,
   (forward_scrubs_and_keepalive sampleReq .exc).2.1 rfl⟩

/-- C4: a backend 404 yields a gateway 404 whose HTML body contains the
requested path, and a raised transport error yields a 500 with an HTML
error body instead of a propagated exception. -/
theorem forward_404_translation (req : Req) (outcome : ForwardOutcome) :
    (∀ resp, outcome = .ok resp → resp.status_code = 404 →
      (forward req outcome).status_code = 404 ∧
      (forward req outcome).mediaType = some "text/html" ∧
      StrContains (forward req outcome).content req.urlPath) ∧
    (outcome = .exc →
      (forward req outcome).status_code = 500 ∧
      (forward req outcome).mediaType = some "text/html") := by
  constructor
  · rintro resp rfl h404
    have hred : forward req (.ok resp) =
        { status_code := 404, headers := [],
          content := popup_404 ("The page \x27" ++ req.urlPath ++ "\x27 could not be found."),
          mediaType := some "text/html" } := by
      simp only [forward]
      rw [if_pos h404]
    rw [hred]
    refine ⟨rfl, rfl, ?_⟩
    unfold StrContains popup_404
    refine ⟨"<html><body><h1>404 Not Found</h1><p>The page \x27".data,
      ("\x27 could not be found." ++ "</p></body></html>").data, ?_⟩
    simp only [String.data_append, List.append_assoc]
    rfl
  · rintro rfl
    exact ⟨rfl, rfl⟩

/-- Witness for C4: a concrete backend 404 and a concrete raised error. -/
theorem forward_404_translation_witness :
    (forward sampleReq (ForwardOutcome.ok sample404Resp)).status_code = 404 ∧
    StrContains (forward sampleReq (ForwardOutcome.ok sample404Resp)).content "/foo" ∧
    (forward sampleReq ForwardOutcome.exc).status_code = 500 :=
  ⟨((forward_404_translation sampleReq (.ok sample404Resp)).1 sample404Resp rfl rfl).1,
   ((forward_404_translation sampleReq (.ok sample404Resp)).1 sample404Resp rfl rfl).2.2,
   ((forward_404_translation sampleReq .exc).2 rfl).1⟩

/-- Every call issued by the tunnel step is a provisioning POST or GET on
the tunnel route. -/
theorem tunnel_calls_prov (env : PyEnv) (cfg : CloudflaredCFG) :
    ∀ c ∈ (tunnel env cfg).2.2, isTunnelProvCall c = true := by
  intro c hc
  have h : (tunnel env cfg).2.2 = [] ∨
      (tunnel env cfg).2.2 = [tunnelPostCall (tunnelNameOf cfg)] ∨
      (tunnel env cfg).2.2 = [tunnelPostCall (tunnelNameOf cfg), tunnelGetCall] := by
    unfold tunnel
    split
    · split
      · split
        · right; left; rfl
        · right; left; rfl
      · split
        · split
          · right; right; rfl
          · right; right; rfl
        · right; left; rfl
    · left; rfl
  rcases h with h | h | h <;> rw [h] at hc
  · exact absurd hc (List.not_mem_nil c)
  · simp only [List.mem_singleton] at hc
    rw [hc]
    rfl
  · simp only [List.mem_cons, List.mem_singleton, List.not_mem_nil, or_false] at hc
    rcases hc with hc | hc <;> rw [hc] <;> rfl

/-- Every call issued by the ingress step is the ingress PUT. -/
theorem connect_server_calls_ingress (env : PyEnv) (app : AppEnv)
    (cfg : CloudflaredCFG) (tun : Option Tunnel) :
    ∀ c ∈ (connect_server env app cfg tun).2.2, isIngressCall c = true := by
  intro c hc
  cases tun with
  | none => exact absurd hc (List.not_mem_nil c)
  | some t =>
    simp only [connect_server] at hc
    split at hc <;>
      · simp only [List.mem_singleton] at hc
        rw [hc]
        rfl

/-- A successful ingress step issued exactly one PUT, whose response it
returns, and that response's status is not 400. -/
theorem connect_server_ok_structure (env : PyEnv) (app : AppEnv)
    (cfg : CloudflaredCFG) (tun : Option Tunnel) (out : ApiResp)
    (cfg' : CloudflaredCFG) (calls : List Call)
    (h : connect_server env app cfg tun = (.ok out, cfg', calls)) :
    ∃ t, tun = some t ∧ calls = [ingressCallOf app cfg t] ∧
      out = env.api (ingressCallOf app cfg t) ∧
      (env.api (ingressCallOf app cfg t)).status ≠ 400 := by
  cases tun with
  | none => simp [connect_server] at h
  | some t =>
    simp only [connect_server] at h
    split at h
    · simp at h
    · rename_i h400
      simp only [Prod.mk.injEq, Except.ok.injEq] at h
      exact ⟨t, rfl, h.2.2.symm, h.1.symm, h400⟩

/-- A failed ingress step issued no call, or had a tunnel and issued the
one PUT. -/
theorem connect_server_error_structure (env : PyEnv) (app : AppEnv)
    (cfg : CloudflaredCFG) (tun : Option Tunnel) (e : PyErr)
    (cfg' : CloudflaredCFG) (calls : List Call)
    (h : connect_server env app cfg tun = (.error e, cfg', calls)) :
    calls = [] ∨ ∃ t, tun = some t ∧ calls = [ingressCallOf app cfg t] := by
  cases tun with
  | none =>
    simp only [connect_server, Prod.mk.injEq] at h
    exact Or.inl h.2.2.symm
  | some t =>
    simp only [connect_server] at h
    split at h
    · simp only [Prod.mk.injEq] at h
      exact Or.inr ⟨t, rfl, h.2.2.symm⟩
    · simp at h

/-- Every call issued by the DNS step is on the DNS-record route. -/
theorem dns_record_calls_dns (env : PyEnv) (cfg : CloudflaredCFG) :
    ∀ c ∈ (dns_record env cfg).2, isDnsCall c = true := by
  intro c hc
  have h : (dns_record env cfg).2 = [dnsPostCall (dnsPayload cfg)] ∨
      (dns_record env cfg).2 = [dnsPostCall (dnsPayload cfg), dnsGetCall] ∨
      ∃ rid, (dns_record env cfg).2 =
        [dnsPostCall (dnsPayload cfg), dnsGetCall, dnsPatchCall rid (dnsPayload cfg)] := by
    unfold dns_record
    split
    · split
      · left; rfl
      · split
        · split
          · right; left; rfl
          · rename_i rec _
            right; right; exact ⟨rec.id, rfl⟩
        · left; rfl
    · left; rfl
  rcases h with h | h | ⟨rid, h⟩ <;> rw [h] at hc <;>
    simp only [List.mem_cons, List.mem_singleton, List.not_mem_nil, or_false] at hc
  · rw [hc]; rfl
  · rcases hc with hc | hc <;> rw [hc] <;> rfl
  · rcases hc with hc | hc | hc <;> rw [hc] <;> rfl

/-- C8 (amended): a start-up trace splits into tunnel-provisioning calls,
then ingress calls, then DNS calls; an ingress PUT is only issued once the
tunnel step returned a tunnel (whose id the PUT addresses), and a DNS call
is only issued once the ingress step completed without raising, i.e. its
single PUT was answered with a status other than 400 (not necessarily a
success status). -/
theorem cloudflared_thread_ordering (env : PyEnv) (app : AppEnv) (cfg : CloudflaredCFG) :
    ∃ c1 c2 c3, (cloudflared_thread env app cfg).2 = c1 ++ c2 ++ c3 ∧
      (∀ c ∈ c1, isTunnelProvCall c = true) ∧
      (∀ c ∈ c2, isIngressCall c = true) ∧
      (∀ c ∈ c3, isDnsCall c = true) ∧
      (c2 ≠ [] → ∃ t, (tunnel env cfg).1 = .ok (some t) ∧
        c2 = [ingressCallOf app (tunnel env cfg).2.1 t]) ∧
      (c3 ≠ [] → ∃ p, c2 = [p] ∧ (env.api p).status ≠ 400) := by
  have htunprov := tunnel_calls_prov env cfg
  rcases htun : tunnel env cfg with ⟨rt, cfg1, c1⟩
  rw [htun] at htunprov
  simp only [cloudflared_thread, htun]
  cases rt with
  | error e =>
    exact ⟨c1, [], [], by simp, htunprov, by simp, by simp, by simp, by simp⟩
  | ok oT =>
    have hingcalls := connect_server_calls_ingress env app cfg1 oT
    rcases hcs : connect_server env app cfg1 oT with ⟨ri, cfg2, c2⟩
    rw [hcs] at hingcalls
    simp only [hcs]
    cases ri with
    | error e =>
      refine ⟨c1, c2, [], by simp, htunprov, hingcalls, by simp, ?_, by simp⟩
      intro hne
      rcases connect_server_error_structure env app cfg1 oT e cfg2 c2 hcs with h0 | ⟨t, ht, hc⟩
      · exact absurd h0 hne
      · subst ht
        exact ⟨t, rfl, hc⟩
    | ok out =>
      obtain ⟨t, ht, hcalls, hout, h400⟩ :=
        connect_server_ok_structure env app cfg1 oT out cfg2 c2 hcs
      subst ht
      have hdnscalls := dns_record_calls_dns env cfg2
      rcases hdns : dns_record env cfg2 with ⟨rd, c3⟩
      rw [hdns] at hdnscalls
      simp only [hdns]
      cases rd with
      | error e =>
        exact ⟨c1, c2, c3, by simp, htunprov, hingcalls, hdnscalls,
          fun _ => ⟨t, rfl, hcalls⟩,
          fun _ => ⟨ingressCallOf app cfg1 t, hcalls, h400⟩⟩
      | ok out2 =>
        exact ⟨c1, c2, c3, by simp, htunprov, hingcalls, hdnscalls,
          fun _ => ⟨t, rfl, hcalls⟩,
          fun _ => ⟨ingressCallOf app cfg1 t, hcalls, h400⟩⟩

/-- Witness for the amended C8: the decomposition at a concrete start-up
trace in which all three steps run. -/
theorem cloudflared_thread_ordering_witness :
    ∃ c1 c2 c3, (cloudflared_thread okEnv { appUrl := none, selfUrl := "" } persistedCfg).2 =
        c1 ++ c2 ++ c3 ∧
      (∀ c ∈ c1, isTunnelProvCall c = true) ∧
      (∀ c ∈ c2, isIngressCall c = true) ∧
      (∀ c ∈ c3, isDnsCall c = true) ∧
      (c2 ≠ [] → ∃ t,
        (tunnel okEnv persistedCfg).1 = .ok (some t) ∧
        c2 = [ingressCallOf { appUrl := none, selfUrl := "" }
                (tunnel okEnv persistedCfg).2.1 t]) ∧
      (c3 ≠ [] → ∃ p, c2 = [p] ∧ (okEnv.api p).status ≠ 400) :=
  cloudflared_thread_ordering okEnv { appUrl := none, selfUrl := "" } persistedCfg

/-- Counterexample to C8 as stated: with a persisted tunnel and an ingress
PUT answered 500, the start-up trace still contains DNS-record calls even
though no ingress-configuration call ever succeeded (returned status 200).
The ingress step only aborts the sequence on status 400. -/
theorem cloudflared_thread_dns_despite_ingress_failure :
    ((cloudflared_thread ingressFailEnv { appUrl := none, selfUrl := "" }
        persistedCfg).2.any isDnsCall = true) ∧
    (∀ c ∈ (cloudflared_thread ingressFailEnv { appUrl := none, selfUrl := "" }
        persistedCfg).2,
      isIngressCall c = true → (ingressFailEnv.api c).status ≠ 200) := by
  constructor
  · rfl
  · decide
